import Mathlib

/-!
# Verification of the 13Primes V5.1 unified 364° system

A shallow embedding, in Lean 4, of the numeric core of the 13Primes
repository: degree-space conversion (`tropicalToPrime`), the ternary
algebra (`convertTrit`, bijective base-3 encoding), the aspect matcher
(`calculateAspect` over `ASPECT_TYPES`), house resolution
(`getHouseFromDegree`, `isIn13thHouse`) and the April-1-anchored 13-moon
calendar mapper (`toThirteenMoonDate`).

JavaScript numbers are idealized as exact rationals `ℚ`; timestamps are
integer milliseconds since the Unix epoch on the proleptic Gregorian
calendar, matching the UTC `Date` semantics the source relies on.
-/

attribute [local semireducible] Rat.add Rat.mul Rat.inv Rat.sub

set_option maxRecDepth 16000

namespace ThirteenPrimes

/-! ## JavaScript numeric primitives -/

/-- Floor of a rational, computed from its numerator and denominator so that
it evaluates inside the kernel. -/
def ratFloor (q : ℚ) : ℤ := q.num / (q.den : ℤ)

theorem ratFloor_eq_floor (q : ℚ) : ratFloor q = ⌊q⌋ := Rat.floor_def.symm

/-- Truncation toward zero, as performed by JavaScript when it evaluates
`a % b` (the quotient is truncated, not floored). -/
def jsTrunc (x : ℚ) : ℤ := if 0 ≤ x then ratFloor x else -ratFloor (-x)

/-- The JavaScript remainder operator `a % b`: `a - b * trunc (a / b)`.
The result carries the sign of the dividend. -/
def jsMod (a b : ℚ) : ℚ := a - b * jsTrunc (a / b)

theorem jsTrunc_of_nonneg {x : ℚ} (h : 0 ≤ x) : jsTrunc x = ⌊x⌋ := by
  rw [jsTrunc, if_pos h, ratFloor_eq_floor]

theorem jsTrunc_of_neg {x : ℚ} (h : x < 0) : jsTrunc x = ⌈x⌉ := by
  rw [jsTrunc, if_neg (not_le.mpr h), ratFloor_eq_floor, Int.floor_neg, neg_neg]

/-- For a positive modulus, the JS remainder always lies strictly between
`-b` and `b`. -/
theorem jsMod_bounds {b : ℚ} (hb : 0 < b) (a : ℚ) : -b < jsMod a b ∧ jsMod a b < b := by
  rcases le_or_lt 0 (a / b) with hx | hx
  · rw [jsMod, jsTrunc_of_nonneg hx]
    have h1 : (0 : ℚ) ≤ a / b - ⌊a / b⌋ := by
      have := Int.floor_le (a / b); linarith
    have h2 : a / b - ⌊a / b⌋ < 1 := by
      have := Int.lt_floor_add_one (a / b); linarith
    have heq : a - b * ⌊a / b⌋ = b * (a / b - ⌊a / b⌋) := by
      field_simp
    constructor
    · nlinarith
    · nlinarith
  · rw [jsMod, jsTrunc_of_neg hx]
    have h1 : (0 : ℚ) ≤ (⌈a / b⌉ : ℚ) - a / b := by
      have := Int.le_ceil (a / b); linarith
    have h2 : (⌈a / b⌉ : ℚ) - a / b < 1 := by
      have := Int.ceil_lt_add_one (a / b); linarith
    have heq : a - b * ⌈a / b⌉ = -(b * ((⌈a / b⌉ : ℚ) - a / b)) := by
      field_simp
      ring
    constructor
    · nlinarith
    · nlinarith

/-- For a nonnegative dividend and positive modulus, the JS remainder is
nonnegative. -/
theorem jsMod_nonneg_of_nonneg {a b : ℚ} (ha : 0 ≤ a) (hb : 0 < b) : 0 ≤ jsMod a b := by
  have hx : 0 ≤ a / b := div_nonneg ha hb.le
  rw [jsMod, jsTrunc_of_nonneg hx]
  have h1 : (0 : ℚ) ≤ a / b - ⌊a / b⌋ := by
    have := Int.floor_le (a / b); linarith
  have heq : a - b * ⌊a / b⌋ = b * (a / b - ⌊a / b⌋) := by field_simp
  nlinarith

/-- The JS remainder differs from the dividend by an integer multiple of the
modulus. -/
theorem jsMod_sub_int (a b : ℚ) : ∃ z : ℤ, jsMod a b = a - b * z :=
  ⟨jsTrunc (a / b), rfl⟩

/-- A value already inside `[0, b)` is fixed by `jsMod`. -/
theorem jsMod_small {a b : ℚ} (ha : 0 ≤ a) (hab : a < b) : jsMod a b = a := by
  have hb : 0 < b := lt_of_le_of_lt ha hab
  have hx : 0 ≤ a / b := div_nonneg ha hb.le
  have hfl : ⌊a / b⌋ = 0 := by
    rw [Int.floor_eq_zero_iff]
    exact Set.mem_Ico.mpr ⟨hx, by rw [div_lt_one hb]; exact hab⟩
  rw [jsMod, jsTrunc_of_nonneg hx, hfl]
  push_cast
  ring

/-- `jsMod` removes one period from a value inside `[b, 2b)`. -/
theorem jsMod_shift {a b : ℚ} (ha : 0 ≤ a) (hab : a < b) : jsMod (a + b) b = a := by
  have hb : 0 < b := lt_of_le_of_lt ha hab
  have hx : 0 ≤ (a + b) / b := div_nonneg (by linarith) hb.le
  have hdiv : (a + b) / b = a / b + 1 := by field_simp
  have hfl : ⌊(a + b) / b⌋ = 1 := by
    rw [hdiv]
    have h0 : ⌊a / b⌋ = 0 := by
      rw [Int.floor_eq_zero_iff]
      exact Set.mem_Ico.mpr ⟨div_nonneg ha hb.le, by rw [div_lt_one hb]; exact hab⟩
    rw [Int.floor_add_one, h0]
    omega
  rw [jsMod, jsTrunc_of_nonneg hx, hfl]
  push_cast
  ring

/-! ## Degree conversion (src/core/conversions: `tropicalToPrime`) -/

/-- System constant: the unified ring size, 364. -/
def PRIME_CIRCLE : ℚ := 364

/-- System constant: one phase spans 28 units of the 364° ring. -/
def PHASE_SIZE : ℚ := 28

/-- System constant: number of phases. -/
def NUM_PHASES : ℕ := 13

/-- System constant: the boundary-snapping tolerance `1e-9`. -/
def EPSILON : ℚ := 1 / 1000000000

/-- The double-`%` idiom `((d % 360) + 360) % 360` the source uses to
normalize a tropical degree into `[0, 360)`. -/
def norm360 (d : ℚ) : ℚ := jsMod (jsMod d 360 + 360) 360

/-- `tropicalToPrime` (src/core/conversions): normalize the tropical degree
into `[0,360)`, scale by `364/360`, snap values within `EPSILON` of 364 to 0,
then renormalize into `[0,364)`. -/
def tropicalToPrime (tropicalDegree : ℚ) : ℚ :=
  jsMod
    (jsMod
      (if |norm360 tropicalDegree * PRIME_CIRCLE / 360 - PRIME_CIRCLE| < EPSILON then 0
        else norm360 tropicalDegree * PRIME_CIRCLE / 360)
      PRIME_CIRCLE + PRIME_CIRCLE)
    PRIME_CIRCLE

theorem norm360_nonneg (d : ℚ) : 0 ≤ norm360 d := by
  have h360 : (0 : ℚ) < 360 := by norm_num
  have hin := jsMod_bounds h360 d
  exact jsMod_nonneg_of_nonneg (by linarith [hin.1]) h360

theorem norm360_lt (d : ℚ) : norm360 d < 360 := (jsMod_bounds (by norm_num) _).2

/-- `norm360` shifts its argument by an integer multiple of 360. -/
theorem norm360_sub_int (d : ℚ) : ∃ z : ℤ, norm360 d = d - 360 * z := by
  obtain ⟨z1, hz1⟩ := jsMod_sub_int d 360
  obtain ⟨z2, hz2⟩ := jsMod_sub_int (jsMod d 360 + 360) 360
  refine ⟨z1 + z2 - 1, ?_⟩
  rw [norm360, hz2, hz1]
  push_cast
  ring

/-- The double-`%` normalization agrees with the mathematical floored
modulus. -/
theorem norm360_eq_floorMod (d : ℚ) : norm360 d = d - 360 * ⌊d / 360⌋ := by
  obtain ⟨z, hz⟩ := norm360_sub_int d
  have hmem1 : 0 ≤ norm360 d := norm360_nonneg d
  have hmem2 : norm360 d < 360 := norm360_lt d
  have hy1 : 0 ≤ d - 360 * ⌊d / 360⌋ := by
    have h := Int.floor_le (d / 360)
    have h2 : (360 : ℚ) * ⌊d / 360⌋ ≤ 360 * (d / 360) :=
      mul_le_mul_of_nonneg_left h (by norm_num)
    have h3 : (360 : ℚ) * (d / 360) = d := by ring
    linarith
  have hy2 : d - 360 * ⌊d / 360⌋ < 360 := by
    have h := Int.lt_floor_add_one (d / 360)
    have h2 : (360 : ℚ) * (d / 360) < 360 * (⌊d / 360⌋ + 1) :=
      mul_lt_mul_of_pos_left h (by norm_num)
    have h3 : (360 : ℚ) * (d / 360) = d := by ring
    linarith
  have hzz : (⌊d / 360⌋ : ℤ) = z := by
    have habs : |((⌊d / 360⌋ : ℚ)) - (z : ℚ)| < 1 := by
      rw [abs_lt]
      constructor <;> nlinarith [hz]
    have hcast : |((⌊d / 360⌋ - z : ℤ) : ℚ)| < 1 := by push_cast; exact habs
    rw [← Int.cast_abs] at hcast
    have h1 : (|⌊d / 360⌋ - z| : ℤ) < 1 := by exact_mod_cast hcast
    rw [abs_lt] at h1
    omega
  rw [hz, hzz]

/-- Periodicity of the normalization in the 360° domain. -/
theorem norm360_add_int_mul (d : ℚ) (k : ℤ) : norm360 (d + 360 * k) = norm360 d := by
  rw [norm360_eq_floorMod, norm360_eq_floorMod]
  have hdiv : (d + 360 * k) / 360 = d / 360 + k := by field_simp; ring
  rw [hdiv, Int.floor_add_int]
  push_cast
  ring

/-- Closed form of `tropicalToPrime`: the scaled, normalized degree, with the
epsilon snap applied; the trailing double-`%` is the identity on it. -/
theorem tropicalToPrime_closed_form (d : ℚ) :
    tropicalToPrime d =
      if |norm360 d * PRIME_CIRCLE / 360 - PRIME_CIRCLE| < EPSILON then 0
        else norm360 d * PRIME_CIRCLE / 360 := by
  have h0 : 0 ≤ norm360 d := norm360_nonneg d
  have h1 : norm360 d < 360 := norm360_lt d
  have hp0 : 0 ≤ norm360 d * PRIME_CIRCLE / 360 := by
    rw [PRIME_CIRCLE]; positivity
  have hp1 : norm360 d * PRIME_CIRCLE / 360 < PRIME_CIRCLE := by
    rw [PRIME_CIRCLE]; nlinarith
  rw [tropicalToPrime]
  by_cases hs : |norm360 d * PRIME_CIRCLE / 360 - PRIME_CIRCLE| < EPSILON
  · rw [if_pos hs]
    have hc : (0 : ℚ) < PRIME_CIRCLE := by rw [PRIME_CIRCLE]; norm_num
    rw [jsMod_small (le_refl 0) hc, jsMod_shift (le_refl 0) hc]
  · rw [if_neg hs]
    rw [jsMod_small hp0 hp1, jsMod_shift hp0 hp1]

/-- C5: for every real tropical degree (negative and over-360 included),
`tropicalToPrime` returns a value in `[0, 364)`; a scaled value within `1e-9`
of 364 is snapped to 0; and the function is 360-periodic in the tropical
domain. -/
theorem C5_toUnifiedDegree_range_snap_periodic (d : ℚ) (k : ℤ) :
    (0 ≤ tropicalToPrime d ∧ tropicalToPrime d < 364) ∧
    tropicalToPrime (d + 360 * k) = tropicalToPrime d ∧
    (|norm360 d * PRIME_CIRCLE / 360 - PRIME_CIRCLE| < EPSILON → tropicalToPrime d = 0) := by
  have h0 : 0 ≤ norm360 d := norm360_nonneg d
  have h1 : norm360 d < 360 := norm360_lt d
  have hp0 : 0 ≤ norm360 d * PRIME_CIRCLE / 360 := by
    rw [PRIME_CIRCLE]; positivity
  have hp1 : norm360 d * PRIME_CIRCLE / 360 < 364 := by
    rw [PRIME_CIRCLE]; nlinarith
  refine ⟨?_, ?_, ?_⟩
  · rw [tropicalToPrime_closed_form]
    split
    · exact ⟨le_refl 0, by norm_num⟩
    · exact ⟨hp0, hp1⟩
  · rw [tropicalToPrime_closed_form, tropicalToPrime_closed_form, norm360_add_int_mul]
  · intro hsnap
    rw [tropicalToPrime_closed_form, if_pos hsnap]

/-- Witness for C5 at the concrete input `360 - 1e-10` (whose scaled value is
within `1e-9` of 364, so the snap fires) and period count `k = 5`. -/
theorem C5_witness :
    (0 ≤ tropicalToPrime (360 - 1 / 10000000000) ∧
      tropicalToPrime (360 - 1 / 10000000000) < 364) ∧
    tropicalToPrime (360 - 1 / 10000000000 + 360 * (5 : ℤ)) =
      tropicalToPrime (360 - 1 / 10000000000) ∧
    tropicalToPrime (360 - 1 / 10000000000) = 0 :=
  ⟨(C5_toUnifiedDegree_range_snap_periodic (360 - 1 / 10000000000) 5).1,
   (C5_toUnifiedDegree_range_snap_periodic (360 - 1 / 10000000000) 5).2.1,
   (C5_toUnifiedDegree_range_snap_periodic (360 - 1 / 10000000000) 5).2.2 (by decide)⟩

/-! ## Ternary algebra (src/core/ternary-astro) -/

/-- The three digit representations: A computational `{-1,0,1}`,
B network `{0,1,2}`, C human/bijective `{1,2,3}`. -/
inductive Representation where
  | A
  | B
  | C
deriving DecidableEq

/-- A tagged ternary value as built by `convertTrit`. -/
structure TernaryValue where
  value : ℤ
  representation : Representation
  meaning : String
deriving DecidableEq

/-- The record returned by `convertTrit`. -/
structure ConversionResult where
  original : TernaryValue
  converted : TernaryValue
  bijection : String
deriving DecidableEq

/-- `getTritMeaning` (src/core/ternary-astro): the False/Neutral/True label
of a digit under a representation. -/
def getTritMeaning (value : ℤ) (rep : Representation) : String :=
  match rep with
  | .A => if value = -1 then "False" else if value = 0 then "Neutral" else "True"
  | .B => if value = 0 then "False" else if value = 1 then "Neutral" else "True"
  | .C => if value = 1 then "False" else if value = 2 then "Neutral" else "True"

/-- `convertTrit` (src/core/ternary-astro): shift a digit between the three
representations. With the closed `Representation` type the source's nine
`if` branches are exhaustive, so the trailing `throw` is unreachable and the
function is total. -/
def convertTrit (value : ℤ) (fromRep toRep : Representation) : ConversionResult :=
  let p : ℤ × String :=
    if fromRep = toRep then (value, "identity")
    else if fromRep = .A ∧ toRep = .B then (value + 1, "f(a) = a + 1")
    else if fromRep = .A ∧ toRep = .C then (value + 2, "f(a) = a + 2")
    else if fromRep = .B ∧ toRep = .A then (value - 1, "f(b) = b - 1")
    else if fromRep = .B ∧ toRep = .C then (value + 1, "f(b) = b + 1")
    else if fromRep = .C ∧ toRep = .A then (value - 2, "f(c) = c - 2")
    else (value - 1, "f(c) = c - 1")
  { original := ⟨value, fromRep, getTritMeaning value fromRep⟩
    converted := ⟨p.1, toRep, getTritMeaning p.1 toRep⟩
    bijection := p.2 }

/-- The digit range a representation admits (A: -1..1, B: 0..2, C: 1..3). -/
def validDigit : Representation → ℤ → Prop
  | .A, v => v = -1 ∨ v = 0 ∨ v = 1
  | .B, v => v = 0 ∨ v = 1 ∨ v = 2
  | .C, v => v = 1 ∨ v = 2 ∨ v = 3

/-- C9: conversion to a representation's own tag is the identity, and for
every ordered pair of representations the two shifts compose to the
identity on valid digits (the six cross shifts are mutually inverse
bijections). -/
theorem C9_convertTrit_identity_and_roundtrip (X Y : Representation) (v : ℤ)
    (hv : validDigit X v) :
    (convertTrit v X X).converted.value = v ∧
    (convertTrit (convertTrit v X Y).converted.value Y X).converted.value = v := by
  constructor
  · cases X <;> simp [convertTrit]
  · cases X <;> cases Y <;> simp [convertTrit]

/-- Witness for C9: digit `-1`, valid in representation A, survives the
A→C→A round trip and A→A is the identity on it. -/
theorem C9_witness :
    (convertTrit (-1) Representation.A Representation.A).converted.value = -1 ∧
    (convertTrit (convertTrit (-1) Representation.A Representation.C).converted.value
      Representation.C Representation.A).converted.value = -1 :=
  C9_convertTrit_identity_and_roundtrip Representation.A Representation.C (-1) (Or.inl rfl)

/-- The digit-emitting loop of `toBijectiveTernary` (src/core/ternary-astro),
written with an explicit fuel argument so it is structurally recursive (the
loop variable strictly decreases, so `num` itself is enough fuel):
repeatedly take `num % 3`; a zero remainder emits digit 3 and continues with
`num / 3 - 1`, otherwise the remainder is emitted and the loop continues
with `num / 3`; digits are prepended, so the recursion appends at the back. -/
def bijDigitsAux : ℕ → ℕ → List ℕ
  | 0, _ => []
  | _, 0 => []
  | fuel + 1, num =>
    if num % 3 = 0 then bijDigitsAux fuel (num / 3 - 1) ++ [3]
    else bijDigitsAux fuel (num / 3) ++ [num % 3]

/-- The digit loop run with enough fuel to terminate on its own. -/
def bijDigits (num : ℕ) : List ℕ := bijDigitsAux num num

/-- `toBijectiveTernary` (src/core/ternary-astro): inputs `n ≤ 0` collapse to
the single digit `[1]`; positive inputs run the digit loop. -/
def toBijectiveTernary (n : ℤ) : List ℕ :=
  if n ≤ 0 then [1] else bijDigits n.toNat

/-- `fromBijectiveTernary` (src/core/ternary-astro): fold digits
left-to-right as `result * 3 + digit`. -/
def fromBijectiveTernary (digits : List ℕ) : ℕ :=
  digits.foldl (fun result d => result * 3 + d) 0

theorem fromBijectiveTernary_append (xs : List ℕ) (d : ℕ) :
    fromBijectiveTernary (xs ++ [d]) = 3 * fromBijectiveTernary xs + d := by
  rw [fromBijectiveTernary, fromBijectiveTernary, List.foldl_append]
  simp [Nat.mul_comm]

theorem bijDigitsAux_succ (f m : ℕ) :
    bijDigitsAux (f + 1) (m + 1) =
      if (m + 1) % 3 = 0 then bijDigitsAux f ((m + 1) / 3 - 1) ++ [3]
      else bijDigitsAux f ((m + 1) / 3) ++ [(m + 1) % 3] := rfl

/-- Decoding inverts one run of the digit loop, for any sufficient fuel. -/
theorem bijDigitsAux_decode :
    ∀ fuel num : ℕ, num ≤ fuel → fromBijectiveTernary (bijDigitsAux fuel num) = num := by
  intro fuel
  induction fuel with
  | zero =>
    intro num hnum
    have h0 : num = 0 := Nat.le_zero.mp hnum
    subst h0
    rfl
  | succ f ih =>
    intro num hnum
    match num with
    | 0 => rfl
    | m + 1 =>
      rw [bijDigitsAux_succ]
      split
      · rename_i h3
        rw [fromBijectiveTernary_append, ih ((m + 1) / 3 - 1) (by omega)]
        omega
      · rename_i h3
        rw [fromBijectiveTernary_append, ih ((m + 1) / 3) (by omega)]
        omega

/-- Decoding inverts the digit loop on every natural number. -/
theorem bijDigits_decode (n : ℕ) : fromBijectiveTernary (bijDigits n) = n :=
  bijDigitsAux_decode n n (le_refl n)

/-- C7: bijective base-3 round trip — for every integer `n > 0`,
`fromBijectiveTernary (toBijectiveTernary n) = n`, and every `n ≤ 0` encodes
as the single digit `[1]`. -/
theorem C7_bijective_base3_roundtrip (n : ℤ) :
    (0 < n → (fromBijectiveTernary (toBijectiveTernary n) : ℤ) = n) ∧
    (n ≤ 0 → toBijectiveTernary n = [1]) := by
  constructor
  · intro hn
    rw [toBijectiveTernary, if_neg (by omega), bijDigits_decode]
    omega
  · intro hn
    rw [toBijectiveTernary, if_pos hn]

/-- Witness for C7: `encode 13` decodes back to 13, and `encode (-5)` is the
single digit 1. -/
theorem C7_witness :
    (fromBijectiveTernary (toBijectiveTernary 13) : ℤ) = 13 ∧
    toBijectiveTernary (-5) = [1] :=
  ⟨(C7_bijective_base3_roundtrip 13).1 (by norm_num),
   (C7_bijective_base3_roundtrip (-5)).2 (by norm_num)⟩

/-! ## Aspect catalog and matcher (src/core/constants, src/core/aspects) -/

/-- One entry of the V5.1 364° aspect catalog `ASPECT_TYPES`
(src/core/constants). -/
structure AspectConfig where
  angle : ℚ
  orb : ℚ
  nature : String
  symbol : String
  power : ℚ
  harmonic : ℤ
  phaseCount : ℕ
  gf3 : ℕ
  ternaryResonance : String
deriving DecidableEq

/-- The V5.1 aspect catalog, in its declared (insertion) order; JavaScript
`Object.entries` preserves this order, so matching iterates it as listed. -/
def ASPECT_TYPES : List (String × AspectConfig) := [
  ("conjunction", ⟨0, 8, "fusion", "\u260C", 10, 1, 0, 0, "Completion"⟩),
  ("opposition", ⟨182, 8, "tension", "\u260D", 9, 2, 6, 0, "Completion"⟩),
  ("trine", ⟨121333/1000, 6, "harmony", "\u25B3", 8, 3, 4, 1, "Initiation"⟩),
  ("square", ⟨91, 6, "challenge", "\u25A1", 8, 4, 3, 0, "Completion"⟩),
  ("sextile", ⟨60667/1000, 4, "opportunity", "\u26B9", 6, 6, 2, 2, "Manifestation"⟩),
  ("quintile", ⟨728/10, 3, "creative", "Q", 5, 5, 3, 0, "Completion"⟩),
  ("septile", ⟨52, 2, "mystical", "S", 4, 7, 2, 2, "Manifestation"⟩),
  ("novile", ⟨40444/1000, 2, "evolutionary", "N", 4, 9, 1, 1, "Initiation"⟩),
  ("tredecile", ⟨28, 2, "phase-resonance", "T", 7, 13, 1, 1, "Initiation"⟩),
  ("quincunx", ⟨151667/1000, 3, "adjustment", "\u26BB", 5, 0, 5, 2, "Manifestation"⟩)]

/-- One entry of the legacy 360° catalog `ASPECT_TYPES_360`
(src/core/constants). -/
structure AspectConfig360 where
  angle : ℚ
  orb : ℚ
  nature : String
  symbol : String
  power : ℚ
deriving DecidableEq

/-- The legacy 360° catalog, kept for the `use364 = false` branch. -/
def ASPECT_TYPES_360 : List (String × AspectConfig360) := [
  ("conjunction", ⟨0, 8, "fusion", "\u260C", 10⟩),
  ("opposition", ⟨180, 8, "tension", "\u260D", 9⟩),
  ("trine", ⟨120, 6, "harmony", "\u25B3", 8⟩),
  ("square", ⟨90, 6, "challenge", "\u25A1", 8⟩),
  ("sextile", ⟨60, 4, "opportunity", "\u26B9", 6⟩),
  ("quincunx", ⟨150, 3, "adjustment", "\u26BB", 5⟩)]

/-- The ternary block attached to a 364° aspect match; its last field
holds `bijectiveTernaryString phaseCount` (renamed here from the source
field whose name ends in the reserved word). -/
structure AspectTernaryInfo where
  phaseCount : ℕ
  gf3 : ℕ
  resonance : String
  bijectiveLabel : String
deriving DecidableEq

/-- `bijectiveTernaryString` (src/core/ternary-astro): digits joined, with
the subscript-3 superscript-b suffix. -/
def bijectiveTernaryString (n : ℤ) : String :=
  String.join ((toBijectiveTernary n).map (fun d => toString d)) ++ "\u2083\u1D47"

/-- The `AspectResult` record of src/core/types. -/
structure AspectResult where
  type : String
  exact : ℚ
  orb : ℚ
  harmonic : ℤ
  ternary : Option AspectTernaryInfo
deriving DecidableEq

/-- The 364° angular separation used by `calculateAspect`:
`|prime1 - prime2| % 364`, folded onto the shorter arc. -/
def separation364 (degree1 degree2 : ℚ) : ℚ :=
  let prime1 := tropicalToPrime degree1
  let prime2 := tropicalToPrime degree2
  let diff := jsMod |prime1 - prime2| PRIME_CIRCLE
  if diff > PRIME_CIRCLE / 2 then PRIME_CIRCLE - diff else diff

/-- The match record `calculateAspect` builds from a catalog entry. -/
def mkAspectResult (e : String × AspectConfig) (diff : ℚ) : AspectResult :=
  { type := e.1
    exact := e.2.angle
    orb := |diff - e.2.angle|
    harmonic := e.2.harmonic
    ternary := some ⟨e.2.phaseCount, e.2.gf3, e.2.ternaryResonance,
      bijectiveTernaryString (e.2.phaseCount : ℤ)⟩ }

/-- The catalog scan inside `calculateAspect` (src/core/aspects): the first
entry whose orb window contains the separation. -/
def findAspect (diff : ℚ) : Option (String × AspectConfig) :=
  ASPECT_TYPES.find? (fun e => decide (|diff - e.2.angle| ≤ e.2.orb))

/-- `calculateAspect` (src/core/aspects): classify the separation of two
tropical longitudes, in the 364° system when `use364` is set, otherwise
against the legacy 360° catalog. -/
def calculateAspect (degree1 degree2 : ℚ) (use364 : Bool := true) : Option AspectResult :=
  if use364 then
    let diff := separation364 degree1 degree2
    (findAspect diff).map (fun e => mkAspectResult e diff)
  else
    let diff := |jsMod (degree1 - degree2 + 180) 360 - 180|
    (ASPECT_TYPES_360.find? (fun e => decide (|diff - e.2.angle| ≤ e.2.orb))).map
      (fun e =>
        { type := e.1, exact := e.2.angle, orb := |diff - e.2.angle|,
          harmonic := 0, ternary := none })

/-- `List.find?` returns a first match: the hit satisfies the predicate, sits
at some index, and every earlier index fails the predicate. -/
theorem find?_first_match {α : Type} (p : α → Bool) :
    ∀ (l : List α) (a : α), l.find? p = some a →
      p a = true ∧
      ∃ i : Fin l.length, l.get i = a ∧
        ∀ j : Fin l.length, j.val < i.val → p (l.get j) = false := by
  intro l
  induction l with
  | nil => intro a h; simp [List.find?] at h
  | cons x xs ih =>
    intro a h
    cases hpx : p x with
    | true =>
      rw [List.find?_cons_of_pos _ hpx] at h
      have hxa : x = a := by injection h
      subst hxa
      refine ⟨hpx, ⟨0, Nat.succ_pos _⟩, rfl, ?_⟩
      intro j hj
      simp at hj
    | false =>
      rw [List.find?_cons_of_neg _ (by simp [hpx])] at h
      obtain ⟨hp, i, hget, hfirst⟩ := ih a h
      refine ⟨hp, i.succ, by simpa using hget, ?_⟩
      intro j hj
      match j with
      | ⟨0, _⟩ => simpa using hpx
      | ⟨k + 1, hk⟩ =>
        have hk2 : k + 1 < xs.length + 1 := by simpa using hk
        have hj2 : k + 1 < i.val + 1 := by simpa using hj
        have hres := hfirst ⟨k, by omega⟩ (show k < i.val by omega)
        simpa using hres

/-- C8: the 364° branch of `calculateAspect` scans the catalog in its
declared priority order — conjunction, opposition, trine, square, sextile,
quintile, septile, novile, tredecile (28°), quincunx — returning the first
entry whose `|separation - angle| \u2264 orb` holds, and `none` (a valid
outcome, not an error) when no entry matches. -/
theorem C8_classify_priority_order_first_match (s : ℚ) (e : String × AspectConfig) :
    ASPECT_TYPES.map Prod.fst =
      ["conjunction", "opposition", "trine", "square", "sextile", "quintile",
        "septile", "novile", "tredecile", "quincunx"] ∧
    (findAspect s = none ↔ ∀ e2 ∈ ASPECT_TYPES, ¬ |s - e2.2.angle| ≤ e2.2.orb) ∧
    (findAspect s = some e →
      |s - e.2.angle| ≤ e.2.orb ∧
      ∃ i : Fin ASPECT_TYPES.length, ASPECT_TYPES.get i = e ∧
        ∀ j : Fin ASPECT_TYPES.length, j.val < i.val →
          ¬ |s - (ASPECT_TYPES.get j).2.angle| ≤ (ASPECT_TYPES.get j).2.orb) := by
  refine ⟨rfl, ?_, ?_⟩
  · rw [findAspect, List.find?_eq_none]
    constructor
    · intro h e2 he2
      have := h e2 he2
      simpa using this
    · intro h e2 he2
      have := h e2 he2
      simpa using this
  · intro h
    obtain ⟨hp, i, hget, hfirst⟩ := find?_first_match _ ASPECT_TYPES e h
    refine ⟨by simpa using hp, i, hget, ?_⟩
    intro j hj
    have := hfirst j hj
    simpa using this

/-- Witness for C8 at separation 90: square (index 3) matches with
`|90 - 91| \u2264 6` while conjunction, opposition and trine all fail. -/
theorem C8_witness :
    |(90 : ℚ) - ("square", (⟨91, 6, "challenge", "\u25A1", 8, 4, 3, 0,
        "Completion"⟩ : AspectConfig)).2.angle| ≤
      ("square", (⟨91, 6, "challenge", "\u25A1", 8, 4, 3, 0,
        "Completion"⟩ : AspectConfig)).2.orb ∧
    ∃ i : Fin ASPECT_TYPES.length,
      ASPECT_TYPES.get i = ("square", ⟨91, 6, "challenge", "\u25A1", 8, 4, 3, 0,
        "Completion"⟩) ∧
      ∀ j : Fin ASPECT_TYPES.length, j.val < i.val →
        ¬ |(90 : ℚ) - (ASPECT_TYPES.get j).2.angle| ≤ (ASPECT_TYPES.get j).2.orb :=
  (C8_classify_priority_order_first_match 90
    ("square", ⟨91, 6, "challenge", "\u25A1", 8, 4, 3, 0, "Completion"⟩)).2.2 (by decide)

/-- JavaScript `Math.round`: round half toward positive infinity,
`\u230Ax + 1/2\u230B`. -/
def jsRound (x : ℚ) : ℤ := ratFloor (x + 1/2)

/-- Rounding with ties broken downward, `\u2308x - 1/2\u2309` (computed through
`ratFloor` so it evaluates in the kernel). -/
def roundHalfDown (x : ℚ) : ℤ := -ratFloor (-(x - 1/2))

/-- The fixed resonance labels keyed by a phase count mod 3. -/
def resonanceLabel (gf3 : ℕ) : String :=
  if gf3 = 0 then "Completion" else if gf3 = 1 then "Initiation" else "Manifestation"

/-- C1 counterexample: at tropical longitudes 0 and 180 the classifier
returns the opposition entry (catalog angle 182) with `phaseCount = 6`, but
JavaScript rounding gives `round(182 / 28) = round(6.5) = 7`, so the
reported phase count is not `round(angle / 28)` for this match. -/
theorem C1_counterexample :
    calculateAspect 0 180 true =
      some { type := "opposition", exact := 182, orb := 0, harmonic := 2,
             ternary := some ⟨6, 0, "Completion", bijectiveTernaryString 6⟩ } ∧
    jsRound ((182 : ℚ) / 28) = 7 ∧ (6 : ℤ) ≠ 7 :=
  ⟨by decide, by decide, by decide⟩

/-- C1 (amended): every aspect match of the 364° classifier reports
`phaseCount` equal to the nearest integer to `angle / 28` with the half-way
tie (opposition, `182 / 28 = 6.5`) broken downward, `gf3 = phaseCount mod 3`,
and the resonance label fixed by `0 \u2192 Completion, 1 \u2192 Initiation,
2 \u2192 Manifestation`. -/
theorem C1_amended_phaseCount_resonance (degree1 degree2 : ℚ) (r : AspectResult)
    (t : AspectTernaryInfo) (h : calculateAspect degree1 degree2 true = some r)
    (ht : r.ternary = some t) :
    (t.phaseCount : ℤ) = roundHalfDown (r.exact / 28) ∧
    t.gf3 = t.phaseCount % 3 ∧
    t.resonance = resonanceLabel t.gf3 := by
  rw [calculateAspect, if_pos rfl, Option.map_eq_some'] at h
  obtain ⟨e, hfind, hmk⟩ := h
  have hmem : e ∈ ASPECT_TYPES := List.mem_of_find?_eq_some hfind
  have hall : ∀ e2 ∈ ASPECT_TYPES,
      ((e2.2.phaseCount : ℤ) = roundHalfDown (e2.2.angle / 28) ∧
        e2.2.gf3 = e2.2.phaseCount % 3 ∧
        e2.2.ternaryResonance = resonanceLabel e2.2.gf3) := by decide
  have he := hall e hmem
  rw [← hmk] at ht
  rw [mkAspectResult] at ht
  have ht2 : t = ⟨e.2.phaseCount, e.2.gf3, e.2.ternaryResonance,
      bijectiveTernaryString (e.2.phaseCount : ℤ)⟩ := by
    injection ht with h2
    exact h2.symm
  subst ht2
  rw [← hmk]
  exact ⟨he.1, he.2.1, he.2.2⟩

/-- Witness for C1 (amended), instantiated at the opposition match produced
by longitudes 0 and 180. -/
theorem C1_amended_witness :
    ((6 : ℕ) : ℤ) = roundHalfDown ((182 : ℚ) / 28) ∧
    (0 : ℕ) = 6 % 3 ∧
    ("Completion" : String) = resonanceLabel 0 :=
  C1_amended_phaseCount_resonance 0 180
    { type := "opposition", exact := 182, orb := 0, harmonic := 2,
      ternary := some ⟨6, 0, "Completion", bijectiveTernaryString 6⟩ }
    ⟨6, 0, "Completion", bijectiveTernaryString 6⟩ (by decide) rfl

/-! ## House resolution (src/core/conversions: cusps and houses) -/

/-- The 13 Prime house names (src/core/constants). -/
def HOUSE_NAMES : List String := [
  "Prima", "Vector Prime", "Solus Prime", "Liege Maximo", "Alpha Trion",
  "Micronus Prime", "Nexus Prime", "Alchemist Prime", "Onyx Prime",
  "Amalgamous Prime", "Quintus Prime", "The Fallen", "Optimus Prime"]

/-- The house-lookup record of src/core/types. -/
structure HouseResult where
  house : ℤ
  houseName : String
  alsoIn13th : Bool
  primeDegree : ℚ
deriving DecidableEq

/-- `getPrimeCusps` (src/core/conversions): the 13 cusps
`(ascPrime + i * 28) % 364`, in ascending phase order from the ascendant. -/
def getPrimeCusps (tropicalAscendant : ℚ) : List ℚ :=
  (List.range NUM_PHASES).map (fun i =>
    jsMod (jsMod (tropicalToPrime tropicalAscendant + (i : ℚ) * PHASE_SIZE) PRIME_CIRCLE
      + PRIME_CIRCLE) PRIME_CIRCLE)

/-- `getHouseFromDegree` (src/core/conversions). It reads only
`houseCusps[0]`; no length check is performed. The source leaves an empty
cusp table undefined (a NaN propagates), so the embedding is read on
nonempty tables, with `headI` standing for `houseCusps[0]`. -/
def getHouseFromDegree (degree : ℚ) (houseCusps : List ℚ) : HouseResult :=
  let primeDegree := tropicalToPrime degree
  let ascendantPrime := tropicalToPrime houseCusps.headI
  let relativePos :=
    jsMod (jsMod (primeDegree - ascendantPrime) PRIME_CIRCLE + PRIME_CIRCLE) PRIME_CIRCLE
  let houseIndex0 := ratFloor (relativePos / PHASE_SIZE)
  let houseIndex :=
    if houseIndex0 ≥ (NUM_PHASES : ℤ) then (NUM_PHASES : ℤ) - 1 else houseIndex0
  { house := houseIndex + 1
    houseName := HOUSE_NAMES.getD houseIndex.toNat ("House " ++ toString (houseIndex + 1))
    alsoIn13th := houseIndex + 1 == 13
    primeDegree := primeDegree }

/-- `isIn13thHouse` (src/core/conversions): a cusp table shorter than 13
entries short-circuits to `false`; otherwise membership of the relative
position in `[12 * 28, 13 * 28)` is tested. -/
def isIn13thHouse (degree : ℚ) (houseCusps : List ℚ) : Bool :=
  if houseCusps.length < NUM_PHASES then false
  else
    let primeDegree := tropicalToPrime degree
    let ascendantPrime := tropicalToPrime houseCusps.headI
    let relativePos :=
      jsMod (jsMod (primeDegree - ascendantPrime) PRIME_CIRCLE + PRIME_CIRCLE) PRIME_CIRCLE
    decide (12 * PHASE_SIZE ≤ relativePos ∧ relativePos < 13 * PHASE_SIZE)

/-- C3 counterexample: with the one-entry cusp table `[0]` the 13th-house
query answers a definite `false` — not an error and not an indeterminate
result — even though the same degree lies in the 13th house under the full
13-cusp table for the same ascendant. -/
theorem C3_counterexample :
    isIn13thHouse 350 [0] = false ∧
    (getPrimeCusps 0).length = 13 ∧
    isIn13thHouse 350 (getPrimeCusps 0) = true :=
  ⟨by decide, by decide, by decide⟩

/-- C3 (amended): house resolution given fewer than 13 cusps does not fail
with an `IncompleteHouseTable` error and does not report indeterminate:
`isIn13thHouse` short-circuits to the definite boolean `false`. -/
theorem C3_amended_short_table_false (degree : ℚ) (houseCusps : List ℚ)
    (h : houseCusps.length < NUM_PHASES) :
    isIn13thHouse degree houseCusps = false := by
  rw [isIn13thHouse, if_pos h]

/-- Witness for C3 (amended) at degree 350 and the one-entry table. -/
theorem C3_amended_witness : isIn13thHouse 350 [(0 : ℚ)] = false :=
  C3_amended_short_table_false 350 [0] (by decide)
/-! ## Proleptic Gregorian day arithmetic (JS UTC `Date` semantics) -/

/-- Milliseconds per day. -/
def msPerDay : ℤ := 86400000

/-- The standard Gregorian leap rule used by `isLeapYear`
(src/calendar/thirteen-moon). -/
def isLeapYear (y : ℤ) : Bool :=
  decide ((y % 4 = 0 ∧ y % 100 ≠ 0) ∨ y % 400 = 0)

/-- Days before the first of each month in a non-leap year. -/
def cumMonthDays : List ℤ := [0, 31, 59, 90, 120, 151, 181, 212, 243, 273, 304, 334]

/-- Day offset of month `m` (1-based) inside year start, honouring a leap
February. -/
def monthOffset (leap : Bool) (m : ℕ) : ℤ :=
  cumMonthDays.getD (m - 1) 0 + (if 2 < m ∧ leap = true then 1 else 0)

/-- Days from the Unix epoch (1970-01-01) to Jan 1 of year `y`, proleptic
Gregorian, via the signed count of leap days (`⌈y/4⌉ - ⌈y/100⌉ + ⌈y/400⌉`
written with floor divisions of shifted arguments). -/
def yearStartDay (y : ℤ) : ℤ :=
  365 * y + ((y + 3) / 4 - (y + 99) / 100 + (y + 399) / 400) - 719528

/-- The whole-day number of the UTC calendar date `(y, m, d)` (month
1-based), as `Date.UTC` computes it. -/
def civilDay (y : ℤ) (m : ℕ) (d : ℤ) : ℤ :=
  yearStartDay y + monthOffset (isLeapYear y) m + (d - 1)

/-- ECMAScript `MakeFullYear`: a year argument between 0 and 99 denotes a
1900-relative year, so `Date.UTC(44, …)` builds a date in 1944. -/
def makeFullYear (y : ℤ) : ℤ := if 0 ≤ y ∧ y ≤ 99 then 1900 + y else y

/-- `Date.UTC(y, monthIndex, day)` in milliseconds since the epoch, with the
0-based month index the source constants use and the `MakeFullYear` mapping
of two-digit year arguments. -/
def dateUTC (y : ℤ) (monthIndex : ℕ) (day : ℤ) : ℤ :=
  msPerDay * civilDay (makeFullYear y) (monthIndex + 1) day

theorem makeFullYear_idem (y : ℤ) : makeFullYear (makeFullYear y) = makeFullYear y := by
  unfold makeFullYear
  split_ifs <;> omega

theorem makeFullYear_eq_self {y : ℤ} (h : y < 0 ∨ 99 < y) : makeFullYear y = y := by
  unfold makeFullYear
  split_ifs <;> omega

/-- `Date.UTC` already receives a full year when its argument came out of
`MakeFullYear` itself (e.g. a `getUTCFullYear` result fed back in). -/
theorem dateUTC_makeFullYear (y : ℤ) (mi : ℕ) (d : ℤ) :
    dateUTC (makeFullYear y) mi d = dateUTC y mi d := by
  unfold dateUTC
  rw [makeFullYear_idem]

/-- The two-digit-year corner in action: `Date.UTC(44, 3, 1)` is April 1 of
1944, not of 44 AD. -/
theorem dateUTC_two_digit_year : dateUTC 44 3 1 = dateUTC 1944 3 1 := by decide

/-- First estimate of the Gregorian year containing a day number (the
400-year cycle spans 146097 days). -/
def yearEstimate (w : ℤ) : ℤ := 400 * (w + 719528) / 146097

/-- The Gregorian year containing day `w` (days since the Unix epoch): the
estimate corrected by at most one year either way. `yearOfDay_eq` and
`yearOfDay_spec` below prove it is exactly the year whose span contains `w`,
which is what `Date.prototype.getUTCFullYear` returns for any timestamp of
that day. -/
def yearOfDay (w : ℤ) : ℤ :=
  if w < yearStartDay (yearEstimate w) then yearEstimate w - 1
  else if yearStartDay (yearEstimate w + 1) ≤ w then yearEstimate w + 1
  else yearEstimate w

/-- `Date.prototype.getUTCFullYear`: the year containing the timestamp's
UTC day (the day index is the floored quotient by `msPerDay`). -/
def getUTCFullYear (ms : ℤ) : ℤ := yearOfDay (ms / msPerDay)

theorem scaled400 (y : ℤ) :
    100 * y ≤ 400 * ((y + 3) / 4) ∧ 400 * ((y + 3) / 4) ≤ 100 * y + 300 ∧
    4 * y ≤ 400 * ((y + 99) / 100) ∧ 400 * ((y + 99) / 100) ≤ 4 * y + 396 ∧
    y ≤ 400 * ((y + 399) / 400) ∧ 400 * ((y + 399) / 400) ≤ y + 399 := by
  omega

theorem yearStartDay_scaled (y : ℤ) :
    146097 * y - 396 ≤ 400 * (yearStartDay y + 719528) ∧
    400 * (yearStartDay y + 719528) ≤ 146097 * y + 699 := by
  have h := scaled400 y
  unfold yearStartDay
  omega

/-- A Gregorian year spans 365 or 366 days. -/
theorem yearStartDay_delta (y : ℤ) :
    yearStartDay y + 365 ≤ yearStartDay (y + 1) ∧
    yearStartDay (y + 1) ≤ yearStartDay y + 366 := by
  unfold yearStartDay
  omega

theorem yearEstimate_near {y w : ℤ} (h1 : yearStartDay y ≤ w) (h2 : w < yearStartDay (y + 1)) :
    y - 1 ≤ yearEstimate w ∧ yearEstimate w ≤ y + 1 := by
  have hs := yearStartDay_scaled y
  have hs2 := yearStartDay_scaled (y + 1)
  have hd := yearStartDay_delta y
  unfold yearEstimate
  omega

theorem yearStartDay_mono {a b : ℤ} (h : a ≤ b) : yearStartDay a ≤ yearStartDay b := by
  have key : ∀ c : ℤ, yearStartDay c ≤ yearStartDay (c + 1) := fun c => by
    have := yearStartDay_delta c; omega
  have h2 : b = a + (b - a).toNat := by omega
  rw [h2]
  generalize (b - a).toNat = n
  induction n with
  | zero => simp
  | succ k ih =>
    have hkey := key (a + k)
    have hcast : ((k + 1 : ℕ) : ℤ) = (k : ℤ) + 1 := by push_cast; ring
    rw [hcast, ← add_assoc]
    exact le_trans ih hkey

/-- `yearOfDay` returns the unique year whose span contains the day. -/
theorem yearOfDay_eq {y w : ℤ} (h1 : yearStartDay y ≤ w) (h2 : w < yearStartDay (y + 1)) :
    yearOfDay w = y := by
  have hn := yearEstimate_near h1 h2
  rw [yearOfDay]
  rcases lt_trichotomy (yearEstimate w) y with hc | hc | hc
  · have he : yearEstimate w = y - 1 := by omega
    rw [he]
    have hms : yearStartDay (y - 1) ≤ yearStartDay y := yearStartDay_mono (by omega)
    rw [if_neg (by omega), if_pos (by simpa using h1)]
    omega
  · rw [hc]
    rw [if_neg (by omega), if_neg (by omega)]
  · have he : yearEstimate w = y + 1 := by omega
    rw [he]
    rw [if_pos ?_]
    · omega
    · have := yearStartDay_delta y
      omega

/-- Every day lies inside the span of its `yearOfDay`. -/
theorem yearOfDay_spec (w : ℤ) :
    yearStartDay (yearOfDay w) ≤ w ∧ w < yearStartDay (yearOfDay w + 1) := by
  have hs := yearStartDay_scaled (yearEstimate w)
  have hd0 := yearStartDay_delta (yearEstimate w - 1)
  have hd1 := yearStartDay_delta (yearEstimate w)
  have hd2 := yearStartDay_delta (yearEstimate w + 1)
  have hj : 146097 * yearEstimate w ≤ 400 * (w + 719528) ∧
      400 * (w + 719528) < 146097 * yearEstimate w + 146097 := by
    unfold yearEstimate
    omega
  have hn : yearEstimate w - 1 + 1 = yearEstimate w := by ring
  rw [hn] at hd0
  rw [yearOfDay]
  split_ifs with hA hB
  · rw [hn]
    omega
  · omega
  · omega

/-! ## 13-moon calendar (src/calendar/thirteen-moon, April-1 Salvi variant) -/

/-- April (0-based JS month index 3). -/
def THIRTEEN_MOON_NEW_YEAR_MONTH : ℕ := 3

def THIRTEEN_MOON_NEW_YEAR_DAY : ℤ := 1

/-- November (0-based JS month index 10). -/
def DAY_OUT_OF_TIME_MONTH : ℕ := 10

def DAY_OUT_OF_TIME_DAY : ℤ := 11

/-- `364 / φ = 224.93…`, truncated: the 0-indexed golden-ratio day. -/
def GOLDEN_RATIO_DAY : ℤ := 224

/-- The fixed 7-name plasma weekday cycle. -/
def THIRTEEN_MOON_WEEKDAYS : List String :=
  ["Dali", "Seli", "Gamma", "Kali", "Alpha", "Limi", "Silio"]

/-- One row of the `THIRTEEN_MOONS` table. -/
structure MoonData where
  number : ℤ
  name : String
  signature : String
  tone : String
  arc : String
deriving DecidableEq

/-- The 13 moons (src/calendar/thirteen-moon, April-1 variant). -/
def THIRTEEN_MOONS : List MoonData := [
  ⟨1, "Magnetic", "Red Dragon", "Purpose \u2013 Unify", "Pre-\u03C6"⟩,
  ⟨2, "Lunar", "White Wind", "Challenge \u2013 Flow", "Pre-\u03C6"⟩,
  ⟨3, "Electric", "Blue Night", "Service \u2013 Activate", "Pre-\u03C6"⟩,
  ⟨4, "Self-Existing", "Yellow Seed", "Form \u2013 Measure", "Pre-\u03C6"⟩,
  ⟨5, "Overtone", "Red Serpent", "Radiance \u2013 Empower", "Pre-\u03C6"⟩,
  ⟨6, "Rhythmic", "White World-Bridger", "Equality \u2013 Organize", "Pre-\u03C6"⟩,
  ⟨7, "Resonant", "Blue Hand", "Channel \u2013 Inspire", "Pre-\u03C6"⟩,
  ⟨8, "Galactic", "Yellow Star", "Integrity \u2013 Harmonize", "Pre-\u03C6"⟩,
  ⟨9, "Solar", "Red Moon", "Intention \u2013 Pulse", "Post-\u03C6"⟩,
  ⟨10, "Planetary", "White Dog", "Manifestation \u2013 Perfect", "Post-\u03C6"⟩,
  ⟨11, "Spectral", "Blue Monkey", "Liberation \u2013 Dissolve", "Post-\u03C6"⟩,
  ⟨12, "Crystal", "Yellow Human", "Cooperation \u2013 Dedicate", "Post-\u03C6"⟩,
  ⟨13, "Cosmic", "Red Skywalker", "Presence \u2013 Endure", "Post-\u03C6"⟩]

/-- Out-of-range fallback row (the source would read `undefined`; the safe
index always lies in 0..12, so this default is never selected). -/
def defaultMoon : MoonData := ⟨0, "", "", "", ""⟩

/-- Out-of-range fallback weekday (never selected: the index is always
0..6). -/
def weekdayFallback : String := ""

/-- The `ThirteenMoonDate` result record (src/core/types, extended by the
April-1 implementation with the Hunab Ku and weekday fields). The purely
presentational `formatted` string is not modelled. -/
structure ThirteenMoonDate where
  moonNumber : ℤ
  moonName : String
  dayOfMoon : ℤ
  galacticSignature : String
  harmonicTone : String
  arc : String
  dayOfYear : ℤ
  isDayOutOfTime : Bool
  isHunabKu : Bool
  weekday : String
  totalCycles : ℤ
deriving DecidableEq

/-- The 13-moon year of a timestamp: the Gregorian year whose April-1
anchor is at or before it, else the previous year. -/
def tmYear (dateMs : ℤ) : ℤ :=
  if dateUTC (getUTCFullYear dateMs) THIRTEEN_MOON_NEW_YEAR_MONTH THIRTEEN_MOON_NEW_YEAR_DAY
      ≤ dateMs then
    getUTCFullYear dateMs
  else getUTCFullYear dateMs - 1

/-- `yearStartMs` of `toThirteenMoonDate`: midnight of the April-1 anchor. -/
def yearStartMs (dateMs : ℤ) : ℤ :=
  dateUTC (tmYear dateMs) THIRTEEN_MOON_NEW_YEAR_MONTH THIRTEEN_MOON_NEW_YEAR_DAY

/-- `daysSinceNewYear`: floored whole days since the anchor. -/
def daysSinceNewYear (dateMs : ℤ) : ℤ := (dateMs - yearStartMs dateMs) / msPerDay

/-- `dotMs`: midnight of November 11 of the 13-moon year. -/
def dotMs (dateMs : ℤ) : ℤ :=
  dateUTC (tmYear dateMs) DAY_OUT_OF_TIME_MONTH DAY_OUT_OF_TIME_DAY

/-- `hasLeapDay`: the Gregorian year following the 13-moon year is leap. -/
def hasLeapDay (dateMs : ℤ) : Bool := isLeapYear (tmYear dateMs + 1)

/-- `hunabKuMs`: midnight of Feb 29 of the following year when it is leap,
otherwise the source's placeholder 0. -/
def hunabKuMs (dateMs : ℤ) : ℤ :=
  if hasLeapDay dateMs = true then dateUTC (tmYear dateMs + 1) 1 29 else 0

/-- The Day-Out-of-Time test: the timestamp falls on the November 11 day. -/
def isDotCond (dateMs : ℤ) : Prop :=
  dotMs dateMs ≤ dateMs ∧ dateMs < dotMs dateMs + msPerDay

/-- The Hunab Ku test: a leap cycle and the timestamp falls on Feb 29. -/
def isHkCond (dateMs : ℤ) : Prop :=
  hasLeapDay dateMs = true ∧ hunabKuMs dateMs ≤ dateMs ∧
    dateMs < hunabKuMs dateMs + msPerDay

instance (dateMs : ℤ) : Decidable (isDotCond dateMs) := by
  unfold isDotCond; infer_instance

instance (dateMs : ℤ) : Decidable (isHkCond dateMs) := by
  unfold isHkCond; infer_instance

/-- `adjustedDay`: days since the anchor, decremented once for each
irregular day already passed, clamped into `[0, 363]`. -/
def adjustedDay (dateMs : ℤ) : ℤ :=
  let a1 := daysSinceNewYear dateMs
  let a2 := if dotMs dateMs + msPerDay ≤ dateMs then a1 - 1 else a1
  let a3 := if hasLeapDay dateMs = true ∧ hunabKuMs dateMs + msPerDay ≤ dateMs then a2 - 1
    else a2
  max 0 (min a3 363)

/-- `toThirteenMoonDate` (src/calendar/thirteen-moon, April-1 variant):
classify the date as Day Out of Time, Hunab Ku Day, or a regular day of one
of the 13 moons. -/
def toThirteenMoonDate (dateMs : ℤ) : ThirteenMoonDate :=
  if isDotCond dateMs then
    { moonNumber := 0
      moonName := "Day Out of Time"
      dayOfMoon := 0
      galacticSignature := "Green Central Sun"
      harmonicTone := "\u221E"
      arc := "\u03C6-point"
      dayOfYear := GOLDEN_RATIO_DAY + 1
      isDayOutOfTime := true
      isHunabKu := false
      weekday := "Day Out of Time"
      totalCycles := tmYear dateMs + 28000 }
  else if isHkCond dateMs then
    { moonNumber := 0
      moonName := "Hunab Ku Day"
      dayOfMoon := 0
      galacticSignature := "Hunab Ku"
      harmonicTone := "0"
      arc := "Post-\u03C6"
      dayOfYear := 0
      isDayOutOfTime := false
      isHunabKu := true
      weekday := "Hunab Ku"
      totalCycles := tmYear dateMs + 28000 }
  else
    { moonNumber :=
        (THIRTEEN_MOONS.getD (max 0 (min (adjustedDay dateMs / 28) 12)).toNat defaultMoon).number
      moonName :=
        (THIRTEEN_MOONS.getD (max 0 (min (adjustedDay dateMs / 28) 12)).toNat defaultMoon).name
      dayOfMoon := adjustedDay dateMs % 28 + 1
      galacticSignature :=
        (THIRTEEN_MOONS.getD (max 0 (min (adjustedDay dateMs / 28) 12)).toNat defaultMoon).signature
      harmonicTone :=
        (THIRTEEN_MOONS.getD (max 0 (min (adjustedDay dateMs / 28) 12)).toNat defaultMoon).tone
      arc :=
        (THIRTEEN_MOONS.getD (max 0 (min (adjustedDay dateMs / 28) 12)).toNat defaultMoon).arc
      dayOfYear := adjustedDay dateMs + 1
      isDayOutOfTime := false
      isHunabKu := false
      weekday := THIRTEEN_MOON_WEEKDAYS.getD (adjustedDay dateMs % 7).toNat weekdayFallback
      totalCycles := tmYear dateMs + 28000 }

theorem toThirteenMoonDate_dot {dateMs : ℤ} (h : isDotCond dateMs) :
    toThirteenMoonDate dateMs =
      { moonNumber := 0, moonName := "Day Out of Time", dayOfMoon := 0,
        galacticSignature := "Green Central Sun", harmonicTone := "\u221E",
        arc := "\u03C6-point", dayOfYear := GOLDEN_RATIO_DAY + 1,
        isDayOutOfTime := true, isHunabKu := false, weekday := "Day Out of Time",
        totalCycles := tmYear dateMs + 28000 } := by
  rw [toThirteenMoonDate, if_pos h]

theorem toThirteenMoonDate_hk {dateMs : ℤ} (hnd : ¬ isDotCond dateMs)
    (h : isHkCond dateMs) :
    toThirteenMoonDate dateMs =
      { moonNumber := 0, moonName := "Hunab Ku Day", dayOfMoon := 0,
        galacticSignature := "Hunab Ku", harmonicTone := "0", arc := "Post-\u03C6",
        dayOfYear := 0, isDayOutOfTime := false, isHunabKu := true,
        weekday := "Hunab Ku", totalCycles := tmYear dateMs + 28000 } := by
  rw [toThirteenMoonDate, if_neg hnd, if_pos h]

theorem toThirteenMoonDate_regular {dateMs : ℤ} (hnd : ¬ isDotCond dateMs)
    (hnh : ¬ isHkCond dateMs) :
    toThirteenMoonDate dateMs =
      { moonNumber :=
          (THIRTEEN_MOONS.getD (max 0 (min (adjustedDay dateMs / 28) 12)).toNat
            defaultMoon).number
        moonName :=
          (THIRTEEN_MOONS.getD (max 0 (min (adjustedDay dateMs / 28) 12)).toNat
            defaultMoon).name
        dayOfMoon := adjustedDay dateMs % 28 + 1
        galacticSignature :=
          (THIRTEEN_MOONS.getD (max 0 (min (adjustedDay dateMs / 28) 12)).toNat
            defaultMoon).signature
        harmonicTone :=
          (THIRTEEN_MOONS.getD (max 0 (min (adjustedDay dateMs / 28) 12)).toNat
            defaultMoon).tone
        arc :=
          (THIRTEEN_MOONS.getD (max 0 (min (adjustedDay dateMs / 28) 12)).toNat
            defaultMoon).arc
        dayOfYear := adjustedDay dateMs + 1
        isDayOutOfTime := false
        isHunabKu := false
        weekday := THIRTEEN_MOON_WEEKDAYS.getD (adjustedDay dateMs % 7).toNat weekdayFallback
        totalCycles := tmYear dateMs + 28000 } := by
  rw [toThirteenMoonDate, if_neg hnd, if_neg hnh]

theorem monthOffset_4 (l : Bool) :
    monthOffset l 4 = 90 + (if l = true then 1 else 0) := by
  cases l <;> decide

theorem monthOffset_11 (l : Bool) :
    monthOffset l 11 = 304 + (if l = true then 1 else 0) := by
  cases l <;> decide

/-- Exact year length: 365 days plus one when the year is leap. -/
theorem yearStartDay_delta_exact (y : ℤ) :
    yearStartDay (y + 1) = yearStartDay y + 365 + (if isLeapYear y = true then 1 else 0) := by
  unfold yearStartDay isLeapYear
  split_ifs with hl
  · have hp : (y % 4 = 0 ∧ y % 100 ≠ 0) ∨ y % 400 = 0 := of_decide_eq_true hl
    rcases hp with ⟨h4, h100⟩ | h400 <;> omega
  · have hp : ¬ ((y % 4 = 0 ∧ y % 100 ≠ 0) ∨ y % 400 = 0) :=
      fun hc => hl (decide_eq_true hc)
    push_neg at hp
    by_cases h4 : y % 4 = 0
    · have h100 : y % 100 = 0 := by tauto
      have h400 : y % 400 ≠ 0 := hp.2
      omega
    · have h400 : y % 400 ≠ 0 := hp.2
      omega

/-- A civil day at a plausible offset inside year `y` reports year `y`. -/
theorem yearOfDay_civilDay {y : ℤ} {m : ℕ} {d : ℤ}
    (hlow : 0 ≤ monthOffset (isLeapYear y) m + (d - 1))
    (hhigh : monthOffset (isLeapYear y) m + (d - 1) < 365) :
    yearOfDay (civilDay y m d) = y := by
  apply yearOfDay_eq
  · unfold civilDay
    omega
  · have hd := yearStartDay_delta y
    unfold civilDay
    omega

theorem getUTCFullYear_dateUTC {y : ℤ} {mi : ℕ} {d : ℤ}
    (hlow : 0 ≤ monthOffset (isLeapYear (makeFullYear y)) (mi + 1) + (d - 1))
    (hhigh : monthOffset (isLeapYear (makeFullYear y)) (mi + 1) + (d - 1) < 365) :
    getUTCFullYear (dateUTC y mi d) = makeFullYear y := by
  rw [getUTCFullYear, dateUTC,
    Int.mul_ediv_cancel_left _ (by norm_num [msPerDay] : msPerDay ≠ 0)]
  exact yearOfDay_civilDay hlow hhigh

/-- The adjusted day written with subtracted indicators, as the spec words
it, instead of the source's sequential reassignments. -/
theorem adjustedDay_eq (dateMs : ℤ) :
    adjustedDay dateMs =
      max 0 (min (daysSinceNewYear dateMs -
        (if dotMs dateMs + msPerDay ≤ dateMs then 1 else 0) -
        (if hasLeapDay dateMs = true ∧ hunabKuMs dateMs + msPerDay ≤ dateMs then 1 else 0))
        363) := by
  rw [adjustedDay]
  split_ifs <;> omega

theorem adjustedDay_bounds (dateMs : ℤ) :
    0 ≤ adjustedDay dateMs ∧ adjustedDay dateMs ≤ 363 := by
  rw [adjustedDay_eq]
  split_ifs <;> omega

/-- Row `i` of the moon table carries moon number `i + 1`. -/
theorem moons_number (i : ℤ) (h1 : 0 ≤ i) (h2 : i ≤ 12) :
    (THIRTEEN_MOONS.getD i.toNat defaultMoon).number = i + 1 := by
  interval_cases i <;> decide

/-- November 11 of any year is exactly 224 days after that year's April 1
anchor, leap or not (no February lies between them). -/
theorem dateUTC_nov11_is_anchor_plus_224 (y : ℤ) :
    dateUTC y DAY_OUT_OF_TIME_MONTH DAY_OUT_OF_TIME_DAY =
      dateUTC y THIRTEEN_MOON_NEW_YEAR_MONTH THIRTEEN_MOON_NEW_YEAR_DAY + 224 * msPerDay := by
  unfold dateUTC civilDay THIRTEEN_MOON_NEW_YEAR_MONTH THIRTEEN_MOON_NEW_YEAR_DAY
    DAY_OUT_OF_TIME_MONTH DAY_OUT_OF_TIME_DAY
  rw [show (10 : ℕ) + 1 = 11 from rfl, show (3 : ℕ) + 1 = 4 from rfl,
    monthOffset_4, monthOffset_11]
  unfold msPerDay
  split_ifs <;> ring

/-- C2 counterexample: the date exactly 225 days after the April 1 anchor of
2021 (November 12, 2021) is a regular day — moon 9, not the DayOutOfTime
marker — so "225 days after the anchor" does not name the Day Out of Time. -/
theorem C2_counterexample :
    (toThirteenMoonDate (dateUTC 2021 THIRTEEN_MOON_NEW_YEAR_MONTH
        THIRTEEN_MOON_NEW_YEAR_DAY + 225 * msPerDay)).isDayOutOfTime = false ∧
    (toThirteenMoonDate (dateUTC 2021 THIRTEEN_MOON_NEW_YEAR_MONTH
        THIRTEEN_MOON_NEW_YEAR_DAY + 225 * msPerDay)).isHunabKu = false ∧
    (toThirteenMoonDate (dateUTC 2021 THIRTEEN_MOON_NEW_YEAR_MONTH
        THIRTEEN_MOON_NEW_YEAR_DAY + 225 * msPerDay)).moonNumber = 9 :=
  ⟨by decide, by decide, by decide⟩

/-- C2 (amended): for every year, November 11 — exactly 224 days after the
April 1 anchor of that year, reported as `dayOfYear = 225` — is mapped to
the DayOutOfTime marker, independent of leap years, and carries the
sentinels `moonNumber = 0`, `dayOfMoon = 0` that keep it outside the regular
1..364 day count. -/
theorem C2_amended_dayOutOfTime_224_days_after_anchor (y : ℤ) :
    dateUTC y DAY_OUT_OF_TIME_MONTH DAY_OUT_OF_TIME_DAY =
      dateUTC y THIRTEEN_MOON_NEW_YEAR_MONTH THIRTEEN_MOON_NEW_YEAR_DAY + 224 * msPerDay ∧
    (toThirteenMoonDate (dateUTC y THIRTEEN_MOON_NEW_YEAR_MONTH
        THIRTEEN_MOON_NEW_YEAR_DAY + 224 * msPerDay)).isDayOutOfTime = true ∧
    (toThirteenMoonDate (dateUTC y THIRTEEN_MOON_NEW_YEAR_MONTH
        THIRTEEN_MOON_NEW_YEAR_DAY + 224 * msPerDay)).isHunabKu = false ∧
    (toThirteenMoonDate (dateUTC y THIRTEEN_MOON_NEW_YEAR_MONTH
        THIRTEEN_MOON_NEW_YEAR_DAY + 224 * msPerDay)).moonNumber = 0 ∧
    (toThirteenMoonDate (dateUTC y THIRTEEN_MOON_NEW_YEAR_MONTH
        THIRTEEN_MOON_NEW_YEAR_DAY + 224 * msPerDay)).dayOfMoon = 0 ∧
    (toThirteenMoonDate (dateUTC y THIRTEEN_MOON_NEW_YEAR_MONTH
        THIRTEEN_MOON_NEW_YEAR_DAY + 224 * msPerDay)).dayOfYear = 225 := by
  have hNov := dateUTC_nov11_is_anchor_plus_224 y
  have hyear : getUTCFullYear (dateUTC y DAY_OUT_OF_TIME_MONTH DAY_OUT_OF_TIME_DAY) =
      makeFullYear y := by
    apply getUTCFullYear_dateUTC
    · rw [show DAY_OUT_OF_TIME_MONTH + 1 = 11 from rfl, monthOffset_11]
      unfold DAY_OUT_OF_TIME_DAY
      split_ifs <;> omega
    · rw [show DAY_OUT_OF_TIME_MONTH + 1 = 11 from rfl, monthOffset_11]
      unfold DAY_OUT_OF_TIME_DAY
      split_ifs <;> omega
  have hc : dateUTC y THIRTEEN_MOON_NEW_YEAR_MONTH THIRTEEN_MOON_NEW_YEAR_DAY
      ≤ dateUTC y DAY_OUT_OF_TIME_MONTH DAY_OUT_OF_TIME_DAY := by
    rw [hNov]
    unfold msPerDay
    omega
  have htm : tmYear (dateUTC y DAY_OUT_OF_TIME_MONTH DAY_OUT_OF_TIME_DAY) =
      makeFullYear y := by
    unfold tmYear
    rw [hyear, dateUTC_makeFullYear, if_pos hc]
  have hdot : dotMs (dateUTC y DAY_OUT_OF_TIME_MONTH DAY_OUT_OF_TIME_DAY) =
      dateUTC y DAY_OUT_OF_TIME_MONTH DAY_OUT_OF_TIME_DAY := by
    unfold dotMs
    rw [htm, dateUTC_makeFullYear]
  have hcond : isDotCond (dateUTC y DAY_OUT_OF_TIME_MONTH DAY_OUT_OF_TIME_DAY) := by
    unfold isDotCond
    rw [hdot]
    refine ⟨le_refl _, ?_⟩
    unfold msPerDay
    omega
  have heq := toThirteenMoonDate_dot hcond
  rw [← hNov, heq]
  exact ⟨rfl, rfl, rfl, rfl, rfl, show GOLDEN_RATIO_DAY + 1 = (225 : ℤ) from by decide⟩

/-- C10: every date is classified as exactly one of DayOutOfTime, Hunab Ku
(inserted leap day) or a regular day; the two irregular markers carry the
sentinels `moonNumber = 0` and `dayOfMoon = 0` (DayOutOfTime additionally
reports `dayOfYear = 225`), and a regular day always has `moonNumber` in
1..13 and `dayOfMoon` in 1..28, so moon number 0 is reserved for the
irregular days. -/
theorem C10_exactly_one_classification (dateMs : ℤ) :
    ((toThirteenMoonDate dateMs).isDayOutOfTime = true ∧
      (toThirteenMoonDate dateMs).isHunabKu = false ∧
      (toThirteenMoonDate dateMs).moonNumber = 0 ∧
      (toThirteenMoonDate dateMs).dayOfMoon = 0 ∧
      (toThirteenMoonDate dateMs).dayOfYear = 225) ∨
    ((toThirteenMoonDate dateMs).isDayOutOfTime = false ∧
      (toThirteenMoonDate dateMs).isHunabKu = true ∧
      (toThirteenMoonDate dateMs).moonNumber = 0 ∧
      (toThirteenMoonDate dateMs).dayOfMoon = 0) ∨
    ((toThirteenMoonDate dateMs).isDayOutOfTime = false ∧
      (toThirteenMoonDate dateMs).isHunabKu = false ∧
      1 ≤ (toThirteenMoonDate dateMs).moonNumber ∧
      (toThirteenMoonDate dateMs).moonNumber ≤ 13 ∧
      1 ≤ (toThirteenMoonDate dateMs).dayOfMoon ∧
      (toThirteenMoonDate dateMs).dayOfMoon ≤ 28) := by
  by_cases hd : isDotCond dateMs
  · left
    rw [toThirteenMoonDate_dot hd]
    exact ⟨rfl, rfl, rfl, rfl, show GOLDEN_RATIO_DAY + 1 = (225 : ℤ) from by decide⟩
  by_cases hk : isHkCond dateMs
  · right; left
    rw [toThirteenMoonDate_hk hd hk]
    exact ⟨rfl, rfl, rfl, rfl⟩
  right; right
  rw [toThirteenMoonDate_regular hd hk]
  dsimp only
  have hb := adjustedDay_bounds dateMs
  have hnum := moons_number (max 0 (min (adjustedDay dateMs / 28) 12)) (by omega) (by omega)
  rw [hnum]
  refine ⟨rfl, rfl, by omega, by omega, by omega, by omega⟩

/-- C6: a date that is neither DayOutOfTime nor Hunab Ku is mapped through
the documented formulas — moon number `floor(adjustedDay / 28)` clamped to
the index range 0..12 plus one, day-in-moon `adjustedDay mod 28 + 1`,
weekday `adjustedDay mod 7` indexing the fixed 7-name cycle, day-of-year
`adjustedDay + 1`, cycle count `phaseYear + 28000`, with `adjustedDay` the
days since the April-1 epoch minus one for each irregular day at or before
the date, clamped into `[0, 363]`. -/
theorem C6_regular_day_formulas (dateMs : ℤ)
    (h1 : (toThirteenMoonDate dateMs).isDayOutOfTime = false)
    (h2 : (toThirteenMoonDate dateMs).isHunabKu = false) :
    (toThirteenMoonDate dateMs).moonNumber =
      min (max (adjustedDay dateMs / 28) 0) 12 + 1 ∧
    (toThirteenMoonDate dateMs).dayOfMoon = adjustedDay dateMs % 28 + 1 ∧
    (toThirteenMoonDate dateMs).weekday =
      THIRTEEN_MOON_WEEKDAYS.getD (adjustedDay dateMs % 7).toNat weekdayFallback ∧
    (toThirteenMoonDate dateMs).dayOfYear = adjustedDay dateMs + 1 ∧
    (toThirteenMoonDate dateMs).totalCycles = tmYear dateMs + 28000 ∧
    adjustedDay dateMs =
      max 0 (min (daysSinceNewYear dateMs -
        (if dotMs dateMs + msPerDay ≤ dateMs then 1 else 0) -
        (if hasLeapDay dateMs = true ∧ hunabKuMs dateMs + msPerDay ≤ dateMs then 1 else 0))
        363) := by
  by_cases hd : isDotCond dateMs
  · rw [toThirteenMoonDate_dot hd] at h1
    simp at h1
  by_cases hk : isHkCond dateMs
  · rw [toThirteenMoonDate_hk hd hk] at h2
    simp at h2
  rw [toThirteenMoonDate_regular hd hk]
  dsimp only
  have hb := adjustedDay_bounds dateMs
  have hnum := moons_number (max 0 (min (adjustedDay dateMs / 28) 12)) (by omega) (by omega)
  rw [hnum]
  exact ⟨by omega, rfl, rfl, rfl, rfl, adjustedDay_eq dateMs⟩

/-- Witness for C6 at April 1, 2023 (a regular day: moon 1, day 1). -/
theorem C6_witness :
    (toThirteenMoonDate (dateUTC 2023 THIRTEEN_MOON_NEW_YEAR_MONTH
        THIRTEEN_MOON_NEW_YEAR_DAY)).moonNumber =
      min (max (adjustedDay (dateUTC 2023 THIRTEEN_MOON_NEW_YEAR_MONTH
        THIRTEEN_MOON_NEW_YEAR_DAY) / 28) 0) 12 + 1 ∧
    (toThirteenMoonDate (dateUTC 2023 THIRTEEN_MOON_NEW_YEAR_MONTH
        THIRTEEN_MOON_NEW_YEAR_DAY)).dayOfMoon =
      adjustedDay (dateUTC 2023 THIRTEEN_MOON_NEW_YEAR_MONTH
        THIRTEEN_MOON_NEW_YEAR_DAY) % 28 + 1 ∧
    (toThirteenMoonDate (dateUTC 2023 THIRTEEN_MOON_NEW_YEAR_MONTH
        THIRTEEN_MOON_NEW_YEAR_DAY)).weekday =
      THIRTEEN_MOON_WEEKDAYS.getD (adjustedDay (dateUTC 2023 THIRTEEN_MOON_NEW_YEAR_MONTH
        THIRTEEN_MOON_NEW_YEAR_DAY) % 7).toNat weekdayFallback ∧
    (toThirteenMoonDate (dateUTC 2023 THIRTEEN_MOON_NEW_YEAR_MONTH
        THIRTEEN_MOON_NEW_YEAR_DAY)).dayOfYear =
      adjustedDay (dateUTC 2023 THIRTEEN_MOON_NEW_YEAR_MONTH
        THIRTEEN_MOON_NEW_YEAR_DAY) + 1 ∧
    (toThirteenMoonDate (dateUTC 2023 THIRTEEN_MOON_NEW_YEAR_MONTH
        THIRTEEN_MOON_NEW_YEAR_DAY)).totalCycles =
      tmYear (dateUTC 2023 THIRTEEN_MOON_NEW_YEAR_MONTH
        THIRTEEN_MOON_NEW_YEAR_DAY) + 28000 ∧
    adjustedDay (dateUTC 2023 THIRTEEN_MOON_NEW_YEAR_MONTH THIRTEEN_MOON_NEW_YEAR_DAY) =
      max 0 (min (daysSinceNewYear (dateUTC 2023 THIRTEEN_MOON_NEW_YEAR_MONTH
          THIRTEEN_MOON_NEW_YEAR_DAY) -
        (if dotMs (dateUTC 2023 THIRTEEN_MOON_NEW_YEAR_MONTH
            THIRTEEN_MOON_NEW_YEAR_DAY) + msPerDay ≤
            dateUTC 2023 THIRTEEN_MOON_NEW_YEAR_MONTH THIRTEEN_MOON_NEW_YEAR_DAY
          then 1 else 0) -
        (if hasLeapDay (dateUTC 2023 THIRTEEN_MOON_NEW_YEAR_MONTH
            THIRTEEN_MOON_NEW_YEAR_DAY) = true ∧
            hunabKuMs (dateUTC 2023 THIRTEEN_MOON_NEW_YEAR_MONTH
              THIRTEEN_MOON_NEW_YEAR_DAY) + msPerDay ≤
            dateUTC 2023 THIRTEEN_MOON_NEW_YEAR_MONTH THIRTEEN_MOON_NEW_YEAR_DAY
          then 1 else 0)) 363) :=
  C6_regular_day_formulas
    (dateUTC 2023 THIRTEEN_MOON_NEW_YEAR_MONTH THIRTEEN_MOON_NEW_YEAR_DAY)
    (by decide) (by decide)

/-- C4 counterexample: January 1 of year -44, millennia before any modern
epoch anchor, is mapped without any error to an ordinary regular-day
position (moon 10), so no `DateOutOfRange` failure exists in the mapper. -/
theorem C4_counterexample :
    (toThirteenMoonDate (dateUTC (-44) 0 1)).isDayOutOfTime = false ∧
    (toThirteenMoonDate (dateUTC (-44) 0 1)).isHunabKu = false ∧
    (toThirteenMoonDate (dateUTC (-44) 0 1)).moonNumber = 10 ∧
    (toThirteenMoonDate (dateUTC (-44) 0 1)).dayOfMoon = 23 :=
  ⟨by decide, by decide, by decide, by decide⟩

/-- C4 (amended): the calendar mapper is total and raises no error for any
date: the adjusted day index is always clamped into `[0, 363]` and an
ordinary position is returned instead of a `DateOutOfRange` failure. When
the timestamp's UTC year lies outside the JavaScript two-digit-year corner
(years 0..100, where `Date.UTC`'s `MakeFullYear` remaps anchor-year
arguments 0..99 to 1900-relative years, landing the anchor about nineteen
centuries away), the date is moreover anchored to an April 1 at most 366
days before it. -/
theorem C4_amended_mapper_total_never_fails (dateMs : ℤ) :
    (0 ≤ adjustedDay dateMs ∧ adjustedDay dateMs ≤ 363) ∧
    (getUTCFullYear dateMs < 0 ∨ 100 < getUTCFullYear dateMs →
      yearStartMs dateMs ≤ dateMs ∧ dateMs < yearStartMs dateMs + 366 * msPerDay) := by
  refine ⟨adjustedDay_bounds dateMs, ?_⟩
  intro hy
  have hmg : makeFullYear (getUTCFullYear dateMs) = getUTCFullYear dateMs :=
    makeFullYear_eq_self (by omega)
  have hmg1 : makeFullYear (getUTCFullYear dateMs - 1) = getUTCFullYear dateMs - 1 :=
    makeFullYear_eq_self (by omega)
  have hw := yearOfDay_spec (dateMs / msPerDay)
  have hgeq : getUTCFullYear dateMs = yearOfDay (dateMs / msPerDay) := rfl
  rw [← hgeq] at hw
  have hms : msPerDay * (dateMs / msPerDay) ≤ dateMs ∧
      dateMs < msPerDay * (dateMs / msPerDay + 1) := by
    unfold msPerDay
    omega
  have hdg := yearStartDay_delta_exact (getUTCFullYear dateMs)
  have hdg1 := yearStartDay_delta_exact (getUTCFullYear dateMs - 1)
  have hng : getUTCFullYear dateMs - 1 + 1 = getUTCFullYear dateMs := by ring
  rw [hng] at hdg1
  have hbitg : (0 : ℤ) ≤ (if isLeapYear (getUTCFullYear dateMs) = true then 1 else 0) ∧
      (if isLeapYear (getUTCFullYear dateMs) = true then (1 : ℤ) else 0) ≤ 1 := by
    split_ifs <;> omega
  have hbitg1 : (0 : ℤ) ≤ (if isLeapYear (getUTCFullYear dateMs - 1) = true then 1 else 0) ∧
      (if isLeapYear (getUTCFullYear dateMs - 1) = true then (1 : ℤ) else 0) ≤ 1 := by
    split_ifs <;> omega
  have hmo := monthOffset_4 (isLeapYear (getUTCFullYear dateMs))
  have hmo1 := monthOffset_4 (isLeapYear (getUTCFullYear dateMs - 1))
  unfold yearStartMs tmYear
  split_ifs with htm
  · refine ⟨htm, ?_⟩
    unfold dateUTC civilDay THIRTEEN_MOON_NEW_YEAR_MONTH THIRTEEN_MOON_NEW_YEAR_DAY at htm ⊢
    rw [hmg] at htm ⊢
    rw [show (3 : ℕ) + 1 = 4 from rfl] at htm ⊢
    rw [hmo] at htm ⊢
    unfold msPerDay at *
    omega
  · constructor
    · unfold dateUTC civilDay THIRTEEN_MOON_NEW_YEAR_MONTH THIRTEEN_MOON_NEW_YEAR_DAY at htm ⊢
      rw [hmg] at htm
      rw [hmg1]
      rw [show (3 : ℕ) + 1 = 4 from rfl] at htm ⊢
      rw [hmo] at htm
      rw [hmo1]
      unfold msPerDay at *
      omega
    · unfold dateUTC civilDay THIRTEEN_MOON_NEW_YEAR_MONTH THIRTEEN_MOON_NEW_YEAR_DAY at htm ⊢
      rw [hmg] at htm
      rw [hmg1]
      rw [show (3 : ℕ) + 1 = 4 from rfl] at htm ⊢
      rw [hmo] at htm
      rw [hmo1]
      unfold msPerDay at *
      omega

/-- Witness for C4 (amended) at January 1 of year -44, whose UTC year -44
lies outside the two-digit-year corner, so the anchoring bound applies. -/
theorem C4_amended_witness :
    (0 ≤ adjustedDay (dateUTC (-44) 0 1) ∧ adjustedDay (dateUTC (-44) 0 1) ≤ 363) ∧
    (yearStartMs (dateUTC (-44) 0 1) ≤ dateUTC (-44) 0 1 ∧
      dateUTC (-44) 0 1 < yearStartMs (dateUTC (-44) 0 1) + 366 * msPerDay) :=
  ⟨(C4_amended_mapper_total_never_fails (dateUTC (-44) 0 1)).1,
   (C4_amended_mapper_total_never_fails (dateUTC (-44) 0 1)).2 (by decide)⟩

end ThirteenPrimes
